import Mathlib

/-!
Verification of the natural-language specification of the `swingby_challenge`
repository against a shallow embedding of its Python source.

The embedding covers:
* the module/import structure of the `swingby` package (which modules exist
  in the tree and what each one imports);
* the physical-constant tables of `swingby/physics/constants.py`;
* the legacy equation-of-motion functions of `equation_of_motion.py`;
* the Equation of Motion of the missing module `swingby/physics/dynamics.py`,
  modelled from the spec (see its doc comment);
* the segment propagator and mission sequencer of
  `swingby/core/simulation.py`, with `scipy.integrate.odeint` abstracted as a
  two-parameter flow (initial time, sample time) and the `astropy` ephemeris
  abstracted as a lookup function, both passed in as parameters.

Machine floats are embedded as real numbers; integer-second grids as `ℤ`.
-/

/-! ## Module and import structure

`swingby/core/simulation.py`, `swingby/__init__.py` and
`swingby/physics/__init__.py` all contain `from ... import` statements that
name the module `swingby.physics.dynamics`.  The model below records which
Python files actually exist under the repository root and which intra-package
modules each package module imports (imports of third-party libraries such as
`numpy`, `scipy`, `astropy`, `pandas`, `matplotlib` are outside the package
and not modelled).
-/

/-- Every Python file present in the repository tree, relative to the root. -/
def pythonSourcePaths : List String :=
  [ "config.py", "equation_of_motion.py", "main.py", "orbit.py",
    "pluto_mission.py",
    "swingby/__init__.py",
    "swingby/core/simulation.py",
    "swingby/physics/__init__.py",
    "swingby/physics/constants.py",
    "swingby/utils/__init__.py",
    "swingby/utils/coordinates.py",
    "swingby/utils/ephemeris.py",
    "swingby/visualization/plots.py",
    "tests/test_config.py",
    "tests/test_equation_of_motion.py",
    "tests/test_simulation.py",
    "tests/test_utils.py",
    "tests/test_visualization.py" ]

/-- The file that would define a given dotted module name (packages are
defined by their `__init__.py`). -/
def moduleFile (m : String) : String :=
  if m = "swingby" then "swingby/__init__.py"
  else if m = "swingby.core.simulation" then "swingby/core/simulation.py"
  else if m = "swingby.physics" then "swingby/physics/__init__.py"
  else if m = "swingby.physics.constants" then "swingby/physics/constants.py"
  else if m = "swingby.physics.dynamics" then "swingby/physics/dynamics.py"
  else if m = "swingby.utils" then "swingby/utils/__init__.py"
  else if m = "swingby.utils.coordinates" then "swingby/utils/coordinates.py"
  else if m = "swingby.utils.ephemeris" then "swingby/utils/ephemeris.py"
  else if m = "swingby.visualization.plots" then "swingby/visualization/plots.py"
  else ""

/-- Whether the file defining module `m` exists in the tree. -/
def moduleFileExists (m : String) : Bool :=
  pythonSourcePaths.contains (moduleFile m)

/-- The intra-package modules each package module imports, read off the
`from ... import` lines of the corresponding file:
* `swingby/__init__.py` lines 10-14;
* `swingby/core/simulation.py` lines 14-17;
* `swingby/physics/__init__.py` lines 3-7;
* `swingby/utils/__init__.py` lines 3-4. -/
def directImports (m : String) : List String :=
  if m = "swingby" then
    [ "swingby.core.simulation", "swingby.physics.constants",
      "swingby.physics.dynamics", "swingby.utils.coordinates",
      "swingby.utils.ephemeris" ]
  else if m = "swingby.core.simulation" then
    [ "swingby.physics.constants", "swingby.physics.dynamics",
      "swingby.utils.ephemeris", "swingby.visualization.plots" ]
  else if m = "swingby.physics" then
    [ "swingby.physics.constants", "swingby.physics.dynamics" ]
  else if m = "swingby.utils" then
    [ "swingby.utils.coordinates", "swingby.utils.ephemeris" ]
  else []

/-- Fuelled import resolution: importing a module succeeds when its defining
file exists and every module it imports can itself be imported.  The fuel
bounds the import-chain depth; all chains in this package have depth at most
three, so fuel `4` is exact. -/
def importOk : ℕ → String → Bool
  | 0, _ => false
  | fuel + 1, m => moduleFileExists m && (directImports m).all (fun d => importOk fuel d)

/-! ## Physical-constant tables (`swingby/physics/constants.py`)

The `Config` class of `constants.py` carries Earth's orbital radius and
speed, a gravitational-parameter table `dict_GM` and a mean-radius table
`dict_planet_radius`.  Python dictionaries keyed by body name are embedded as
functions `String → ℝ`; looking up a key absent from the dictionary would
raise `KeyError` in Python and is mapped to `0` here (no claim looks up an
absent key). -/

namespace Config

/-- Source `constants.py` line 10: Earth's orbital radius, km (1 au). -/
noncomputable def r_earth : ℝ := 149597870.7

/-- Source `constants.py` line 13: Earth's orbital speed, km/s. -/
noncomputable def v_earth : ℝ := Real.sqrt (1.327e11 / r_earth)

/-- Source `constants.py` line 25: gravitational constant in km^3 units. -/
noncomputable def G : ℝ := 6.6743e-11 * 1e-9

/-- Source `constants.py` lines 26-37: the `dict_GM` table, km^3/s^2. -/
noncomputable def dict_GM (body : String) : ℝ :=
  if body = "sun" then 1.327e11
  else if body = "mercury" then G * 330.2e21
  else if body = "venus" then G * 4868.5e21
  else if body = "earth" then 398600.4354360959
  else if body = "mars" then G * 641.85e21
  else if body = "jupiter" then G * 1.8986e27
  else if body = "saturn" then G * 568460e21
  else if body = "uranus" then G * 86832e21
  else if body = "neptune" then G * 102430e21
  else if body = "pluto" then G * 13.105e21
  else 0

/-- Source `constants.py` lines 42-53: the `dict_planet_radius` table, km. -/
noncomputable def dict_planet_radius (body : String) : ℝ :=
  if body = "sun" then 696000
  else if body = "mercury" then 2439.7
  else if body = "venus" then 6051.8
  else if body = "earth" then 6371
  else if body = "mars" then 3390
  else if body = "jupiter" then 69911
  else if body = "saturn" then 58232
  else if body = "uranus" then 25362
  else if body = "neptune" then 24622
  else if body = "pluto" then 1185
  else 0

end Config

/-! ## State vectors and equation-of-motion outcomes -/

/-- The spacecraft state vector `[x, y, vx, vy]` (km, km/s). -/
@[ext]
structure State4 where
  x : ℝ
  y : ℝ
  vx : ℝ
  vy : ℝ

/-- Possible outcomes of one equation-of-motion evaluation.  The vocabulary
is rich enough to express both what the source does and what the spec's
error taxonomy (section 7) asks for:
* `deriv d` — a state derivative `(dx/dt, dy/dt, dvx/dt, dvy/dt)` is
  returned;
* `processExit` — the source prints an error message and calls
  `sys.exit()`, terminating the whole process (`equation_of_motion.py`
  lines 146-147);
* `collisionError body` — a typed fatal collision error naming the
  offending body, as the spec's `CollisionError`/`SwingbyCollisionError`
  demands.  No function in the source tree ever produces this outcome. -/
inductive EomResult where
  | deriv : ℝ × ℝ × ℝ × ℝ → EomResult
  | processExit : EomResult
  | collisionError : String → EomResult

/-! ## Legacy equations of motion (`equation_of_motion.py`) -/

/-- Source `equation_of_motion.py` lines 32-48, `orbital_equation_of_motion_twobody`:
Sun-centred two-body dynamics with `GM = 1.327e11`.  The time argument is
unused, as in the source. -/
noncomputable def orbital_equation_of_motion_twobody (x : State4) (_t : ℝ) :
    ℝ × ℝ × ℝ × ℝ :=
  let GM : ℝ := 1.327e11
  let r_norm := Real.sqrt (x.x ^ 2 + x.y ^ 2)
  (x.vx, x.vy, -GM * x.x / r_norm ^ 3, -GM * x.y / r_norm ^ 3)

/-- The spacecraft-to-Earth distance computed inside
`orbital_equation_of_motion_nbody` (`equation_of_motion.py` lines 136-143):
Earth is placed on a circular orbit of radius `a1` with period `period1` and
initial phase `theta1`, and `d1_norm` is the Euclidean norm of the relative
vector. -/
noncomputable def eomEarthDistance (x : State4) (t theta1 : ℝ) : ℝ :=
  let period1 : ℝ := 365 * 24 * 60 * 60
  let a1 : ℝ := 149597870.7
  let r1x := a1 * Real.cos (2 * Real.pi * t / period1 + theta1)
  let r1y := a1 * Real.sin (2 * Real.pi * t / period1 + theta1)
  Real.sqrt ((x.x - r1x) ^ 2 + (x.y - r1y) ^ 2)

/-- Source `equation_of_motion.py` lines 111-154, `orbital_equation_of_motion_nbody`:
Sun gravity from the origin plus Earth gravity from a circular-orbit Earth
at phase `theta1`.  When the Earth distance `d1_norm` drops below 6371 km
the source prints an error message and calls `sys.exit()`; that control path
is the `processExit` outcome. -/
noncomputable def orbital_equation_of_motion_nbody (x : State4) (t theta1 : ℝ) :
    EomResult :=
  let GM : ℝ := 1.327e11
  let GM1 : ℝ := 3.986e5
  let period1 : ℝ := 365 * 24 * 60 * 60
  let a1 : ℝ := 149597870.7
  let r1x := a1 * Real.cos (2 * Real.pi * t / period1 + theta1)
  let r1y := a1 * Real.sin (2 * Real.pi * t / period1 + theta1)
  let d1x := x.x - r1x
  let d1y := x.y - r1y
  let r_norm := Real.sqrt (x.x ^ 2 + x.y ^ 2)
  let d1_norm := Real.sqrt (d1x ^ 2 + d1y ^ 2)
  if d1_norm < 6371 then EomResult.processExit
  else EomResult.deriv
    (x.vx, x.vy,
     -GM * x.x / r_norm ^ 3 - GM1 * d1x / d1_norm ^ 3,
     -GM * x.y / r_norm ^ 3 - GM1 * d1y / d1_norm ^ 3)

/-! ## The Equation of Motion of `swingby.physics.dynamics`

`swingby/core/simulation.py` line 15 and the tests import
`orbital_equation_of_motion_nbody` from `swingby.physics.dynamics` with
signature `(x, t, dt_start, planet_list, dict_GM, dict_planet_radius)`, but
no file `swingby/physics/dynamics.py` exists in the tree.  The function is
therefore modelled from the spec below.  The ephemeris provider
(`get_body_barycentric` at instant `dt_start + t` seconds) is abstracted as a
lookup `eph : String → ℝ → ℝ × ℝ` from body name and elapsed seconds to
planar position. -/

/-- Modelled from the spec: the per-planet acceleration accumulation of the
Equation of Motion of the missing module `swingby/physics/dynamics.py`
(spec section 4.1, steps 2-4).  For each named planet the relative vector
from the planet to the spacecraft is formed, the collision guard
`d < planet_radius` fails fatally naming the offending body, and otherwise
the contribution `-GM_planet * relative / d^3` is accumulated. -/
noncomputable def planetAccel (eph : String → ℝ → ℝ × ℝ) (pos : ℝ × ℝ) (t : ℝ)
    (dict_GM dict_radius : String → ℝ) : List String → Except String (ℝ × ℝ)
  | [] => Except.ok (0, 0)
  | p :: rest =>
    let pp := eph p t
    let dx := pos.1 - pp.1
    let dy := pos.2 - pp.2
    let d := Real.sqrt (dx ^ 2 + dy ^ 2)
    if d < dict_radius p then Except.error p
    else
      match planetAccel eph pos t dict_GM dict_radius rest with
      | Except.error q => Except.error q
      | Except.ok acc =>
        Except.ok (acc.1 - dict_GM p * dx / d ^ 3, acc.2 - dict_GM p * dy / d ^ 3)

/-- Modelled from the spec: the Equation of Motion of the missing module
`swingby/physics/dynamics.py` (spec section 4.1).  Sun gravity
`-GM_sun * r / |r|^3` from a fixed origin is added to the per-planet
contributions; a collision with any active planet gives the typed
`collisionError` naming that body. -/
noncomputable def dynamics_orbital_equation_of_motion_nbody
    (eph : String → ℝ → ℝ × ℝ) (x : State4) (t : ℝ) (planetList : List String)
    (dict_GM dict_radius : String → ℝ) : EomResult :=
  match planetAccel eph (x.x, x.y) t dict_GM dict_radius planetList with
  | Except.error p => EomResult.collisionError p
  | Except.ok acc =>
    let r_norm := Real.sqrt (x.x ^ 2 + x.y ^ 2)
    EomResult.deriv
      (x.vx, x.vy,
       -dict_GM "sun" * x.x / r_norm ^ 3 + acc.1,
       -dict_GM "sun" * x.y / r_norm ^ 3 + acc.2)

/-! ## Segment propagator and mission sequencer (`swingby/core/simulation.py`)

`propagate_orbit_segment` builds the daily sample grid with
`np.arange(t_start, t_start + travel_days*86400, 86400)` and hands it to
`scipy.integrate.odeint`.  The integrator is abstracted as a flow
`flow planetList t0 t x0`: the state the ODE solution started at `(t0, x0)`
has reached at sample time `t` (odeint's row for sample `t`; its first row,
`t = t0`, is the initial condition itself).  The mission-start instant
`dt_start` only resolves ephemeris queries and is folded into `flow`.
The sequencer loop, the pandas daily timestamp series, the planet coordinate
series and the spacecraft-Earth distance follow `run_simulation` and
`_calculate_spacecraft_earth_distance` line by line.  The loop and the
propagator are generic in the state type `S` and the delta-V entry type `DV`
so that the same definitions serve both the full real-valued instantiation
and small decidable instantiations. -/

/-- Source `simulation.py` lines 110-112: the per-segment sample grid
`np.arange(t_start, t_start + travel_days*24*60*60, 24*60*60)` — for
`travel_days = n` exactly `n` entries `t_start + 86400*k`, `k < n`. -/
def segGrid (tStart : ℤ) (travelDays : ℕ) : List ℤ :=
  (List.range travelDays).map (fun (k : ℕ) => tStart + 86400 * (k : ℤ))

/-- Source `simulation.py` lines 89-126, `propagate_orbit_segment`: returns the
odeint solution (one state row per grid entry) and the grid itself. -/
def propagate_orbit_segment {S : Type} (flow : List String → ℤ → ℤ → S → S)
    (x0 : S) (travelDays : ℕ) (tStart : ℤ) (planetList : List String) :
    List S × List ℤ :=
  ((segGrid tStart travelDays).map (fun tk => flow planetList tStart tk x0),
   segGrid tStart travelDays)

/-- Source `simulation.py` lines 153-168: the segment loop of `run_simulation`.
`i` is the `enumerate` index; segment `0` uses an empty planet list and the
initial state unchanged, and every later segment applies its delta-V to the
previous segment's final row (`solutions[-1][-1, :] + [0, 0, dVx, dVy]`) and
starts at the previous grid's final time (`t_current = t_span[-1]`).
The `getLastD` defaults are never reached for positive durations; for a
zero-day segment Python's `[-1]` indexing would raise instead. -/
def segmentsLoop {S DV : Type} (flow : List String → ℤ → ℤ → S → S)
    (applyDV : S → DV → S) (planetList : List String) :
    S → ℤ → ℕ → List (ℕ × DV) → List (List S) × List (List ℤ)
  | _, _, _, [] => ([], [])
  | xPrev, t, i, (d, dv) :: rest =>
    let x0 := if i = 0 then xPrev else applyDV xPrev dv
    let pl := if i = 0 then [] else planetList
    let sg := propagate_orbit_segment flow x0 d t pl
    let next := segmentsLoop flow applyDV planetList (sg.1.getLastD x0)
      (sg.2.getLastD t) (i + 1) rest
    (sg.1 :: next.1, sg.2 :: next.2)

/-- The chain of per-segment time grids produced by the sequencer loop:
each segment's grid starts at the previous grid's last entry. -/
def gridChain (t : ℤ) : List ℕ → List (List ℤ)
  | [] => []
  | d :: rest => segGrid t d :: gridChain ((segGrid t d).getLastD t) rest

/-- Source `simulation.py` lines 45-62, `calculate_initial_velocity`:
`v_sc_x = -(v_earth + v_inf)`, `v_sc_y = v_inf * 0.5`. -/
noncomputable def calculate_initial_velocity (vInf : ℝ) : ℝ × ℝ :=
  (-(Config.v_earth + vInf), vInf * 0.5)

/-- Source `simulation.py` lines 64-87, `setup_initial_conditions`: Earth's
barycentric position at mission start (`get_body_barycentric`, abstracted as
the argument `earthInit`), the spacecraft placed at
`x_e + 1 * dict_planet_radius["earth"]`, `y_e`, with the velocity from
`calculate_initial_velocity`. -/
noncomputable def setup_initial_conditions (earthInit : ℝ × ℝ) (vInf : ℝ) :
    State4 :=
  { x := earthInit.1 + 1 * Config.dict_planet_radius "earth"
    y := earthInit.2
    vx := (calculate_initial_velocity vInf).1
    vy := (calculate_initial_velocity vInf).2 }

/-- Source `simulation.py` line 160: the delta-V application
`solutions[-1][-1, :] + [0, 0, delta_V[0], delta_V[1]]`. -/
noncomputable def applyDeltaV (s : State4) (dv : ℝ × ℝ) : State4 :=
  { s with vx := s.vx + dv.1, vy := s.vy + dv.2 }

/-- NumPy 1-D broadcasting for the subtraction `a - b`: element-wise for
equal lengths, broadcast when either operand has length one, and otherwise a
`ValueError` (modelled as `Except.error ()`). -/
noncomputable def npSub (a b : List ℝ) : Except Unit (List ℝ) :=
  if a.length = b.length then Except.ok (List.zipWith (fun ai bi => ai - bi) a b)
  else if b.length = 1 then Except.ok (a.map (fun ai => ai - b.headD 0))
  else if a.length = 1 then Except.ok (b.map (fun bi => a.headD 0 - bi))
  else Except.error ()

/-- Source `simulation.py` lines 190-193: `np.sqrt((earth_x - sc_x)**2 +
(earth_y - sc_y)**2)` over NumPy broadcasting.  The `x` and `y` differences
have equal lengths whenever the inputs pair up (`ex.length = ey.length`,
`sx.length = sy.length`), which holds at every call site. -/
noncomputable def spacecraftEarthDistance (ex ey sx sy : List ℝ) :
    Except Unit (List ℝ) :=
  match npSub ex sx, npSub ey sy with
  | Except.ok dx, Except.ok dy =>
    Except.ok (List.zipWith (fun a b => Real.sqrt (a ^ 2 + b ^ 2)) dx dy)
  | Except.error e, _ => Except.error e
  | _, Except.error e => Except.error e

/-- The mutable attributes of an `OrbitSimulation` object
(`simulation.py` lines 40-43).  The pandas timestamp series is modelled by
its day indices `0, 1, ...` from mission start. -/
structure SimState where
  solutions : List (List State4)
  timeseries : Option (List ℕ)
  planet_coordinates : Option (List (String × (List ℝ × List ℝ)))
  spacecraft_earth_distance : Option (List ℝ)

/-- A fresh `OrbitSimulation()` object: empty solutions, all other
attributes `None`. -/
def freshSimState : SimState :=
  { solutions := [], timeseries := none, planet_coordinates := none
    spacecraft_earth_distance := none }

/-- Failure vocabulary for a `run_simulation` call.  `preconditionError` and
`shapeMismatchError` come from the spec's error taxonomy (section 7);
`valueError` is NumPy's untyped broadcast failure.  The model shows which of
these the source can actually produce. -/
inductive SimError where
  | preconditionError : SimError
  | shapeMismatchError : SimError
  | valueError : SimError

/-- Source `simulation.py` lines 128-193, `run_simulation` followed by
`_calculate_spacecraft_earth_distance`, as a transition on the object state:
* initial conditions from `setup_initial_conditions`;
* the segment loop over `zip(travel_days, delta_V)` starting at
  `t_current = 0`;
* `self.timeseries = pd.date_range(dt_start, dt_start +
  (sum(travel_days) - 1) days, freq="D")` — `sum travel_days` daily stamps,
  modelled by their day indices;
* planet coordinate series for every planet in `planet_list` over that
  series (`get_planet_coord_timeseries`, abstracted as `eph`: body name and
  day index to planar position);
* if `"earth"` is among the planet coordinates, the spacecraft-Earth
  distance over the concatenated solution columns, a NumPy broadcast
  failure aborting the call; otherwise `self.spacecraft_earth_distance` is
  left at its previous value (`run_simulation_core` below carries this
  distance step; `run_simulation` supplies its inputs). -/
noncomputable def run_simulation_core (sols : List (List State4)) (ts : List ℕ)
    (pcs : List (String × (List ℝ × List ℝ))) (prevDist : Option (List ℝ)) :
    Except SimError SimState :=
  match pcs.lookup "earth" with
  | none => Except.ok
      { solutions := sols, timeseries := some ts
        planet_coordinates := some pcs
        spacecraft_earth_distance := prevDist }
  | some exy =>
    let scx := (sols.map (fun sol => sol.map State4.x)).flatten
    let scy := (sols.map (fun sol => sol.map State4.y)).flatten
    match spacecraftEarthDistance exy.1 exy.2 scx scy with
    | Except.error _ => Except.error SimError.valueError
    | Except.ok dist => Except.ok
        { solutions := sols, timeseries := some ts
          planet_coordinates := some pcs
          spacecraft_earth_distance := some dist }

/-- Source `simulation.py` lines 128-178, `run_simulation` proper: initial
conditions, the segment loop, the daily timestamp series, the planet
coordinate series, then the distance step of `run_simulation_core`. -/
noncomputable def run_simulation (flow : List String → ℤ → ℤ → State4 → State4)
    (earthInit : ℝ × ℝ) (eph : String → ℕ → ℝ × ℝ) (s : SimState) (vInf : ℝ)
    (travelDays : List ℕ) (deltaV : List (ℝ × ℝ)) (planetList : List String) :
    Except SimError SimState :=
  let x0 := setup_initial_conditions earthInit vInf
  let run := segmentsLoop flow applyDeltaV planetList x0 0 0
    (travelDays.zip deltaV)
  let ts := List.range travelDays.sum
  let pcs := planetList.map (fun p =>
    (p, (ts.map (fun d => (eph p d).1), ts.map (fun d => (eph p d).2))))
  run_simulation_core run.1 ts pcs s.spacecraft_earth_distance

/-! ## Concrete instantiations used in the closed evaluations below -/

/-- A stand-in integrator for closed evaluations that never inspect state
values: every sample is the initial state. -/
def demoFlow : List String → ℤ → ℤ → State4 → State4 := fun _ _ _ s => s

/-- An exact flow on `State4` for witnessing the flow laws: positions drift
linearly at the (constant) velocity.  It satisfies both
`driftFlow pl t t x = x` and the composition law. -/
noncomputable def driftFlow : List String → ℤ → ℤ → State4 → State4 :=
  fun _ t1 t2 s =>
    { x := s.x + ((t2 - t1 : ℤ) : ℝ) * s.vx
      y := s.y + ((t2 - t1 : ℤ) : ℝ) * s.vy
      vx := s.vx, vy := s.vy }

/-- A decidable exact flow on `ℤ` (state = position, unit velocity), also
satisfying the identity and composition flow laws. -/
def driftZ : List String → ℤ → ℤ → ℤ → ℤ := fun _ t1 t2 s => s + (t2 - t1)

/-- Earth at the origin at mission start, for closed evaluations. -/
noncomputable def demoEarthInit : ℝ × ℝ := (0, 0)

/-- An ephemeris placing every body at the origin at every instant, for
closed evaluations that never inspect coordinate values. -/
noncomputable def demoEph : String → ℕ → ℝ × ℝ := fun _ _ => (0, 0)

/-- The object state after one successful `run_simulation` call whose planet
list contains `"earth"` (one 1-day segment): its
`spacecraft_earth_distance` attribute is populated. -/
noncomputable def demoPrevState : SimState :=
  match run_simulation demoFlow demoEarthInit demoEph freshSimState 0 [1]
      [(0, 0)] ["earth"] with
  | Except.ok s => s
  | Except.error _ => freshSimState

/-! ## Helper lemmas -/

theorem segGrid_succ (t : ℤ) (n : ℕ) :
    segGrid t (n + 1) = segGrid t n ++ [t + 86400 * (n : ℤ)] := by
  simp [segGrid, List.range_succ]

theorem segGrid_length (t : ℤ) (n : ℕ) : (segGrid t n).length = n := by
  simp only [segGrid, List.length_map, List.length_range]

theorem segGrid_head? (t : ℤ) (n : ℕ) (h : 0 < n) :
    (segGrid t n).head? = some t := by
  obtain ⟨m, rfl⟩ := Nat.exists_eq_succ_of_ne_zero h.ne'
  simp [segGrid, List.range_succ_eq_map]

theorem segGrid_getLastD (t : ℤ) (n : ℕ) :
    (segGrid t (n + 1)).getLastD t = t + 86400 * (n : ℤ) := by
  rw [segGrid_succ, List.getLastD_concat]

theorem segGrid_getLast? (t : ℤ) (n : ℕ) :
    (segGrid t (n + 1)).getLast? = some (t + 86400 * (n : ℤ)) := by
  rw [segGrid_succ]
  exact List.getLast?_concat _

theorem segGrid_getD (t : ℤ) {k n : ℕ} (h : k < n) :
    (segGrid t n).getD k 0 = t + 86400 * (k : ℤ) := by
  have hk : k < (segGrid t n).length := by simpa [segGrid_length] using h
  rw [List.getD_eq_getElem _ _ hk]
  simp only [segGrid, List.getElem_map, List.getElem_range]

theorem segGrid_pairwise (t : ℤ) (n : ℕ) :
    (segGrid t n).Pairwise (· < ·) := by
  have H : ∀ a b : ℕ, a < b → t + 86400 * (a : ℤ) < t + 86400 * (b : ℤ) := by
    intro a b hab
    have hab' : (a : ℤ) < (b : ℤ) := by exact_mod_cast hab
    linarith
  exact List.Pairwise.map _ H (List.pairwise_lt_range n)

theorem propagate_orbit_segment_grid {S : Type}
    (flow : List String → ℤ → ℤ → S → S) (x0 : S) (n : ℕ) (t : ℤ)
    (pl : List String) :
    (propagate_orbit_segment flow x0 n t pl).2 = segGrid t n := rfl

theorem propagate_orbit_segment_sol_getLastD {S : Type}
    (flow : List String → ℤ → ℤ → S → S) (x0 y : S) (n : ℕ) (t : ℤ)
    (pl : List String) :
    ((propagate_orbit_segment flow x0 (n + 1) t pl).1).getLastD y =
      flow pl t (t + 86400 * (n : ℤ)) x0 := by
  simp only [propagate_orbit_segment, segGrid_succ, List.map_append, List.map_cons,
    List.map_nil]
  rw [List.getLastD_concat]

theorem segmentsLoop_grids {S DV : Type} (flow : List String → ℤ → ℤ → S → S)
    (applyDV : S → DV → S) (pl : List String) :
    ∀ (l : List (ℕ × DV)) (x : S) (t : ℤ) (i : ℕ),
      (segmentsLoop flow applyDV pl x t i l).2 = gridChain t (l.map Prod.fst) := by
  intro l
  induction l with
  | nil => intro x t i; rfl
  | cons hd tl ih =>
    intro x t i
    obtain ⟨d, dv⟩ := hd
    simp only [segmentsLoop, propagate_orbit_segment, gridChain, List.map_cons]
    exact congrArg _ (ih _ _ _)

theorem segmentsLoop_sols_length {S DV : Type}
    (flow : List String → ℤ → ℤ → S → S) (applyDV : S → DV → S)
    (pl : List String) :
    ∀ (l : List (ℕ × DV)) (x : S) (t : ℤ) (i : ℕ),
      ((segmentsLoop flow applyDV pl x t i l).1).length = l.length := by
  intro l
  induction l with
  | nil => intro x t i; rfl
  | cons hd tl ih =>
    intro x t i
    obtain ⟨d, dv⟩ := hd
    simp only [segmentsLoop, List.length_cons]
    exact congrArg _ (ih _ _ _)

theorem gridChain_chain' :
    ∀ (ds : List ℕ) (t : ℤ), (∀ d ∈ ds, 0 < d) →
      List.Chain' (fun g g' => g'.head? = g.getLast?) (gridChain t ds) := by
  intro ds
  induction ds with
  | nil => intro t _; simp [gridChain]
  | cons d rest ih =>
    intro t h
    rw [gridChain, List.chain'_cons']
    refine ⟨?_, ih _ (fun d' hd' => h d' (List.mem_cons_of_mem _ hd'))⟩
    intro g' hg'
    cases rest with
    | nil => simp [gridChain] at hg'
    | cons d' rest' =>
      simp only [gridChain, List.head?_cons, Option.mem_def, Option.some_inj] at hg'
      subst hg'
      have hd : 0 < d := h d (List.mem_cons_self _ _)
      have hd' : 0 < d' := h d' (List.mem_cons_of_mem _ (List.mem_cons_self _ _))
      obtain ⟨m, rfl⟩ := Nat.exists_eq_succ_of_ne_zero hd.ne'
      rw [segGrid_head? _ _ hd', segGrid_getLast?, segGrid_getLastD]

theorem gridChain_mem_pairwise :
    ∀ (ds : List ℕ) (t : ℤ) (g : List ℤ), g ∈ gridChain t ds →
      g.Pairwise (· < ·) := by
  intro ds
  induction ds with
  | nil => intro t g hg; simp [gridChain] at hg
  | cons d rest ih =>
    intro t g hg
    rw [gridChain, List.mem_cons] at hg
    rcases hg with rfl | hg
    · exact segGrid_pairwise _ _
    · exact ih _ _ hg

theorem lookup_map_of_mem {β : Type} (f : String → β) :
    ∀ (pl : List String) (a : String), a ∈ pl →
      (pl.map (fun p => (p, f p))).lookup a = some (f a) := by
  intro pl
  induction pl with
  | nil => intro a ha; simp at ha
  | cons p ps ih =>
    intro a ha
    by_cases hap : a = p
    · subst hap
      rw [List.map_cons, List.lookup_cons, beq_self_eq_true]
    · have hmem : a ∈ ps := by
        rcases List.mem_cons.mp ha with h | h
        · exact absurd h hap
        · exact h
      have hbeq : (a == p) = false := beq_eq_false_iff_ne.mpr hap
      rw [List.map_cons, List.lookup_cons, hbeq]
      exact ih a hmem

theorem lookup_map_of_not_mem {β : Type} (f : String → β) :
    ∀ (pl : List String) (a : String), a ∉ pl →
      (pl.map (fun p => (p, f p))).lookup a = none := by
  intro pl
  induction pl with
  | nil => intro a _; simp
  | cons p ps ih =>
    intro a ha
    have hap : ¬a = p := fun h => ha (h ▸ List.mem_cons_self _ _)
    have hmem : a ∉ ps := fun h => ha (List.mem_cons_of_mem _ h)
    have hbeq : (a == p) = false := beq_eq_false_iff_ne.mpr hap
    rw [List.map_cons, List.lookup_cons, hbeq]
    exact ih a hmem

/-- The decidable drift flow `driftZ` satisfies the exact-flow identity law. -/
theorem driftZ_id (pl : List String) (t s : ℤ) : driftZ pl t t s = s := by
  simp [driftZ]

/-- The decidable drift flow `driftZ` satisfies the exact-flow composition
law. -/
theorem driftZ_comp (pl : List String) (ta tb tc s : ℤ) :
    driftZ pl tb tc (driftZ pl ta tb s) = driftZ pl ta tc s := by
  simp [driftZ]
  ring

/-! ## Claim theorems -/

/-- Claim C3: `swingby/core/simulation.py` imports
`orbital_equation_of_motion_nbody` from `swingby.physics.dynamics`, but no
file `swingby/physics/dynamics.py` exists in the source tree, so importing
`swingby.core.simulation` (hence any call to `run_simulation`), importing
the `swingby` package itself, and importing `swingby.physics` all fail with
an import error before any propagation can start. -/
theorem dynamics_module_missing_import_fails :
    "swingby.physics.dynamics" ∈ directImports "swingby.core.simulation"
    ∧ moduleFileExists "swingby.physics.dynamics" = false
    ∧ importOk 4 "swingby.core.simulation" = false
    ∧ importOk 4 "swingby" = false
    ∧ importOk 4 "swingby.physics" = false := by
  decide

/-- Claim C5: for every state type, integrator flow, initial state, start
offset `t` and positive duration of `n` whole days, the Segment Propagator's
sample time grid has exactly `n` entries, its first entry equals the start
offset, and consecutive entries differ by exactly 86400 seconds. -/
theorem segment_grid_daily_cadence {S : Type}
    (flow : List String → ℤ → ℤ → S → S) (x0 : S) (pl : List String)
    (n : ℕ) (t : ℤ) (h : 1 ≤ n) :
    ((propagate_orbit_segment flow x0 n t pl).2).length = n
    ∧ ((propagate_orbit_segment flow x0 n t pl).2).head? = some t
    ∧ ∀ k : ℕ, k + 1 < n →
        ((propagate_orbit_segment flow x0 n t pl).2).getD (k + 1) 0 =
          ((propagate_orbit_segment flow x0 n t pl).2).getD k 0 + 86400 := by
  simp only [propagate_orbit_segment_grid]
  refine ⟨segGrid_length t n, segGrid_head? t n h, ?_⟩
  intro k hk
  rw [segGrid_getD t hk, segGrid_getD t (Nat.lt_of_succ_lt hk)]
  push_cast
  ring

/-- Witness for C5: a concrete three-day segment starting at offset 7. -/
theorem segment_grid_daily_cadence_witness :
    1 ≤ 3
    ∧ (((propagate_orbit_segment (fun (_ : List String) (_ _ : ℤ) (s : Unit) => s)
          () 3 7 []).2).length = 3
      ∧ ((propagate_orbit_segment (fun (_ : List String) (_ _ : ℤ) (s : Unit) => s)
          () 3 7 []).2).head? = some 7
      ∧ ∀ k : ℕ, k + 1 < 3 →
          ((propagate_orbit_segment (fun (_ : List String) (_ _ : ℤ) (s : Unit) => s)
            () 3 7 []).2).getD (k + 1) 0 =
            ((propagate_orbit_segment (fun (_ : List String) (_ _ : ℤ) (s : Unit) => s)
              () 3 7 []).2).getD k 0 + 86400) :=
  ⟨by norm_num,
   segment_grid_daily_cadence (fun _ _ _ s => s) () [] 3 7 (by norm_num)⟩

/-- Claim C4 (counterexample): in a two-segment mission of 2 days and 2 days,
the sequencer loop's second grid starts at the first grid's final time, so
the elapsed time 86400 s is sampled in both segments — contradicting the
claim that no sampled time appears in two segments (no duplication of the
boundary sample). -/
theorem boundary_time_sampled_twice :
    (86400 : ℤ) ∈ ((segmentsLoop (fun (_ : List String) (_ _ : ℤ) (s : Unit) => s)
        (fun (s : Unit) (_ : Unit) => s) ["earth"] () 0 0
        [(2, ()), (2, ())]).2).getD 0 []
    ∧ (86400 : ℤ) ∈ ((segmentsLoop (fun (_ : List String) (_ _ : ℤ) (s : Unit) => s)
        (fun (s : Unit) (_ : Unit) => s) ["earth"] () 0 0
        [(2, ()), (2, ())]).2).getD 1 [] := by
  decide

/-- Claim C4 (amended): for positive segment durations the per-segment grids
produced by the sequencer loop chain with neither gap nor free space —
each grid's first entry equals the previous grid's last entry, so exactly
the boundary instant is sampled twice — and within each grid the samples are
strictly increasing, so no other time is shared. -/
theorem segment_grids_share_exactly_boundary {S DV : Type}
    (flow : List String → ℤ → ℤ → S → S) (applyDV : S → DV → S)
    (planetList : List String) (x : S) (t : ℤ) (i : ℕ)
    (segs : List (ℕ × DV)) (h : ∀ p ∈ segs, 0 < p.1) :
    List.Chain' (fun g g' => g'.head? = g.getLast?)
      ((segmentsLoop flow applyDV planetList x t i segs).2)
    ∧ ∀ g ∈ (segmentsLoop flow applyDV planetList x t i segs).2,
        g.Pairwise (· < ·) := by
  rw [segmentsLoop_grids]
  refine ⟨gridChain_chain' _ t ?_, fun g hg => gridChain_mem_pairwise _ t g hg⟩
  intro d hd
  obtain ⟨p, hp, rfl⟩ := List.mem_map.mp hd
  exact h p hp

/-- Witness for the amended C4 on a concrete two-segment mission. -/
theorem segment_grids_share_exactly_boundary_witness :
    (∀ p ∈ [((2 : ℕ), ()), (2, ())], 0 < p.1)
    ∧ (List.Chain' (fun g g' => g'.head? = g.getLast?)
        ((segmentsLoop (fun (_ : List String) (_ _ : ℤ) (s : Unit) => s)
          (fun (s : Unit) (_ : Unit) => s) ["venus"] () 0 0
          [(2, ()), (2, ())]).2)
      ∧ ∀ g ∈ ((segmentsLoop (fun (_ : List String) (_ _ : ℤ) (s : Unit) => s)
          (fun (s : Unit) (_ : Unit) => s) ["venus"] () 0 0
          [(2, ()), (2, ())]).2), g.Pairwise (· < ·)) :=
  ⟨by decide,
   segment_grids_share_exactly_boundary (fun _ _ _ s => s) (fun s _ => s)
     ["venus"] () 0 0 [(2, ()), (2, ())] (by decide)⟩

/-- Claim C9 (counterexample): even for an exact flow satisfying the
identity and composition laws (`driftZ`, cf. `driftZ_id` and `driftZ_comp`),
propagating one 1-day segment and then another 1-day segment from its final
state does not reproduce a single continuous 2-day propagation: the chained
run ends at elapsed time 0 while the continuous run ends at 86400 s, one
daily sample later. -/
theorem chained_segments_lose_boundary_day :
    ¬ (((propagate_orbit_segment driftZ
          (((propagate_orbit_segment driftZ 0 1 0 []).1).getLastD 0)
          1 (((propagate_orbit_segment driftZ 0 1 0 []).2).getLastD 0) []).1).getLastD 0
        = ((propagate_orbit_segment driftZ 0 (1 + 1) 0 []).1).getLastD 0) := by
  decide

/-- Claim C9 (amended): for any integrator flow satisfying the exact-flow
composition law, and a delta-V application that is the
identity at the zero impulse, propagating `dA` days and then `dB` days from
the first segment's final state (with the zero delta-V applied) yields the
final state of a single continuous propagation of `dA + dB - 1` days — one
day short of the claim's `dA + dB`, because the second segment restarts at
the first segment's final sampled time. -/
theorem chained_segments_equal_continuous_minus_one {S DV : Type}
    (flow : List String → ℤ → ℤ → S → S) (applyDV : S → DV → S) (dv0 : DV)
    (pl : List String) (x0 : S) (t0 : ℤ) (dA dB : ℕ)
    (hcomp : ∀ ta tb tc x, flow pl tb tc (flow pl ta tb x) = flow pl ta tc x)
    (hdv : ∀ x, applyDV x dv0 = x)
    (hA : 1 ≤ dA) (hB : 1 ≤ dB) :
    ((propagate_orbit_segment flow
        (applyDV (((propagate_orbit_segment flow x0 dA t0 pl).1).getLastD x0) dv0)
        dB (((propagate_orbit_segment flow x0 dA t0 pl).2).getLastD t0) pl).1).getLastD x0
      = ((propagate_orbit_segment flow x0 (dA + dB - 1) t0 pl).1).getLastD x0 := by
  obtain ⟨a, rfl⟩ : ∃ a, dA = a + 1 := ⟨dA - 1, by omega⟩
  obtain ⟨b, rfl⟩ : ∃ b, dB = b + 1 := ⟨dB - 1, by omega⟩
  have hsum : a + 1 + (b + 1) - 1 = (a + b) + 1 := by omega
  rw [hsum, propagate_orbit_segment_grid, segGrid_getLastD,
    propagate_orbit_segment_sol_getLastD, propagate_orbit_segment_sol_getLastD,
    propagate_orbit_segment_sol_getLastD, hdv, hcomp]
  congr 1
  push_cast
  ring

/-- Witness for the amended C9: a concrete 2-day plus 3-day chain over the
drift flow on `State4`, with the sequencer's real zero-impulse delta-V
application. -/
theorem chained_segments_equal_continuous_minus_one_witness :
    ((propagate_orbit_segment driftFlow
        (applyDeltaV (((propagate_orbit_segment driftFlow
          (⟨0, 0, 1, 0⟩ : State4) 2 0 []).1).getLastD (⟨0, 0, 1, 0⟩ : State4)) (0, 0))
        3 (((propagate_orbit_segment driftFlow
          (⟨0, 0, 1, 0⟩ : State4) 2 0 []).2).getLastD 0) []).1).getLastD
          (⟨0, 0, 1, 0⟩ : State4)
      = ((propagate_orbit_segment driftFlow (⟨0, 0, 1, 0⟩ : State4)
          (2 + 3 - 1) 0 []).1).getLastD (⟨0, 0, 1, 0⟩ : State4) :=
  chained_segments_equal_continuous_minus_one driftFlow applyDeltaV (0, 0) []
    (⟨0, 0, 1, 0⟩ : State4) 0 2 3
    (by intro ta tb tc x; ext <;> simp only [driftFlow] <;> push_cast <;> ring)
    (by intro x; ext <;> simp [applyDeltaV])
    (by norm_num) (by norm_num)

/-- Shared helper: whenever the circular-model Earth distance is below
6371 km, `orbital_equation_of_motion_nbody` takes its guard branch and the
process is terminated (`print` + `sys.exit()`); no derivative is computed, so
no division by a near-zero distance happens. -/
theorem eom_nbody_processExit_of_lt (x : State4) (t theta1 : ℝ)
    (h : eomEarthDistance x t theta1 < 6371) :
    orbital_equation_of_motion_nbody x t theta1 = EomResult.processExit := by
  simp only [orbital_equation_of_motion_nbody]
  simp only [eomEarthDistance] at h
  rw [if_pos h]

/-- Shared helper: a spacecraft exactly at the circular-model Earth's
position (`t = 0`, `theta1 = 0`, position `(a1, 0)`) is at Earth distance
exactly 0. -/
theorem eomEarthDistance_at_center :
    eomEarthDistance (⟨149597870.7, 0, 0, 0⟩ : State4) 0 0 = 0 := by
  simp [eomEarthDistance]

/-- Claim C1 (counterexample): with the spacecraft exactly at the
circular-model Earth's position (distance 0 < 6371), the equation of motion
of `equation_of_motion.py` terminates the process directly
(`print` + `sys.exit()`, the `processExit` outcome) — it does not fail with
a typed `CollisionError` identifying the offending body. -/
theorem collision_at_earth_center_process_exit :
    orbital_equation_of_motion_nbody (⟨149597870.7, 0, 0, 0⟩ : State4) 0 0 =
      EomResult.processExit
    ∧ ¬ ∃ body, orbital_equation_of_motion_nbody
        (⟨149597870.7, 0, 0, 0⟩ : State4) 0 0 = EomResult.collisionError body := by
  have hd : eomEarthDistance (⟨149597870.7, 0, 0, 0⟩ : State4) 0 0 < 6371 := by
    rw [eomEarthDistance_at_center]
    norm_num
  have hres := eom_nbody_processExit_of_lt _ 0 0 hd
  refine ⟨hres, ?_⟩
  rintro ⟨body, hb⟩
  rw [hres] at hb
  exact EomResult.noConfusion hb

/-- Claim C1 (amended): for every state and time at which the circular-model
spacecraft-to-Earth distance is below Earth's radius 6371 km (including
distance exactly 0), `orbital_equation_of_motion_nbody` aborts the run by
printing an error and terminating the process directly (`sys.exit()`),
returning no derivative — so no division by zero occurs — rather than
raising a typed `CollisionError`. -/
theorem collision_guard_aborts_by_process_exit (x : State4) (t theta1 : ℝ)
    (h : eomEarthDistance x t theta1 < 6371) :
    orbital_equation_of_motion_nbody x t theta1 = EomResult.processExit :=
  eom_nbody_processExit_of_lt x t theta1 h

/-- Witness for the amended C1 at the distance-0 input. -/
theorem collision_guard_aborts_by_process_exit_witness :
    eomEarthDistance (⟨149597870.7, 0, 0, 0⟩ : State4) 0 0 < 6371
    ∧ orbital_equation_of_motion_nbody (⟨149597870.7, 0, 0, 0⟩ : State4) 0 0 =
        EomResult.processExit :=
  ⟨by rw [eomEarthDistance_at_center]; norm_num,
   collision_guard_aborts_by_process_exit (⟨149597870.7, 0, 0, 0⟩ : State4) 0 0
     (by rw [eomEarthDistance_at_center]; norm_num)⟩

/-- Claim C6: the Equation of Motion of `swingby.physics.dynamics`
(modelled from the spec, the module being absent from the tree), evaluated
with an empty active-planet list and the `Config` tables of `constants.py`,
returns exactly the two-body Sun-centred derivative
`(vx, vy, -GM_sun*x/|r|^3, -GM_sun*y/|r|^3)` of
`orbital_equation_of_motion_twobody`, with no planet contribution. -/
theorem nbody_empty_planet_list_is_twobody (eph : String → ℝ → ℝ × ℝ)
    (x : State4) (t : ℝ) :
    dynamics_orbital_equation_of_motion_nbody eph x t []
        Config.dict_GM Config.dict_planet_radius
      = EomResult.deriv (orbital_equation_of_motion_twobody x t) := by
  have hsun : Config.dict_GM "sun" = 1.327e11 := by
    unfold Config.dict_GM
    rw [if_pos rfl]
  simp only [dynamics_orbital_equation_of_motion_nbody, planetAccel,
    orbital_equation_of_motion_twobody, hsun]
  norm_num

/-- Claim C10: for every mission-start Earth position from the ephemeris and
every positive hyperbolic excess speed, the Initial Condition Builder of
`simulation.py` produces a state whose speed exceeds Earth's orbital speed,
whose initial `y` equals Earth's ephemeris `y`, and whose initial `x` is
Earth's ephemeris `x` offset by a factor between 1 and 3 of Earth's radius
(the source uses exactly factor 1). -/
theorem initial_conditions_hyperbolic_excess (earthInit : ℝ × ℝ) (vInf : ℝ)
    (h : 0 < vInf) :
    Real.sqrt ((setup_initial_conditions earthInit vInf).vx ^ 2 +
        (setup_initial_conditions earthInit vInf).vy ^ 2) > |Config.v_earth|
    ∧ (setup_initial_conditions earthInit vInf).y = earthInit.2
    ∧ ∃ c : ℝ, 1 ≤ c ∧ c ≤ 3 ∧
        (setup_initial_conditions earthInit vInf).x =
          earthInit.1 + c * Config.dict_planet_radius "earth" := by
  refine ⟨?_, rfl, ⟨1, le_refl 1, by norm_num, rfl⟩⟩
  have hve : 0 ≤ Config.v_earth := Real.sqrt_nonneg _
  rw [abs_of_nonneg hve]
  simp only [setup_initial_conditions, calculate_initial_velocity]
  have h2 : Config.v_earth ^ 2 <
      (-(Config.v_earth + vInf)) ^ 2 + (vInf * 0.5) ^ 2 := by
    nlinarith [hve, h]
  have h3 := Real.sqrt_lt_sqrt (sq_nonneg Config.v_earth) h2
  rwa [Real.sqrt_sq hve] at h3

/-- Witness for C10 at Earth position `(0, 0)` and `v_inf = 1`. -/
theorem initial_conditions_hyperbolic_excess_witness :
    (0 : ℝ) < 1
    ∧ (Real.sqrt ((setup_initial_conditions ((0 : ℝ), (0 : ℝ)) 1).vx ^ 2 +
          (setup_initial_conditions ((0 : ℝ), (0 : ℝ)) 1).vy ^ 2) > |Config.v_earth|
      ∧ (setup_initial_conditions ((0 : ℝ), (0 : ℝ)) 1).y = ((0 : ℝ), (0 : ℝ)).2
      ∧ ∃ c : ℝ, 1 ≤ c ∧ c ≤ 3 ∧
          (setup_initial_conditions ((0 : ℝ), (0 : ℝ)) 1).x =
            ((0 : ℝ), (0 : ℝ)).1 + c * Config.dict_planet_radius "earth") :=
  ⟨by norm_num, initial_conditions_hyperbolic_excess ((0 : ℝ), (0 : ℝ)) 1 (by norm_num)⟩

/-- Shared helper: every outcome of the distance step is either a normal
result whose `solutions` keep their length, or NumPy's untyped broadcast
`valueError`; no other error is reachable. -/
theorem run_simulation_core_shape (sols : List (List State4)) (ts : List ℕ)
    (pcs : List (String × (List ℝ × List ℝ))) (d : Option (List ℝ)) {L : ℕ}
    (hL : sols.length = L) :
    match run_simulation_core sols ts pcs d with
    | Except.ok st => st.solutions.length = L
    | Except.error e => e = SimError.valueError := by
  unfold run_simulation_core
  cases hl : pcs.lookup "earth" with
  | none => exact hL
  | some exy =>
    dsimp only
    rcases hdd : spacecraftEarthDistance exy.1 exy.2
        ((sols.map (fun sol => sol.map State4.x)).flatten)
        ((sols.map (fun sol => sol.map State4.y)).flatten) with e | dist
    · rw [hdd]
    · rw [hdd]
      exact hL

/-- Shared helper: when `"earth"` has a coordinate series, the distance step
does not read the previous `spacecraft_earth_distance` value at all. -/
theorem run_simulation_core_some_indep (sols : List (List State4)) (ts : List ℕ)
    (pcs : List (String × (List ℝ × List ℝ))) (d d' : Option (List ℝ))
    {exy : List ℝ × List ℝ} (h : pcs.lookup "earth" = some exy) :
    run_simulation_core sols ts pcs d = run_simulation_core sols ts pcs d' := by
  unfold run_simulation_core
  rw [h]

/-- Shared helper: when `"earth"` has no coordinate series, the previous
`spacecraft_earth_distance` value is carried over unchanged. -/
theorem run_simulation_core_none_dist (sols : List (List State4)) (ts : List ℕ)
    (pcs : List (String × (List ℝ × List ℝ))) (d : Option (List ℝ))
    (h : pcs.lookup "earth" = none) :
    (run_simulation_core sols ts pcs d).map
        (fun st => st.spacecraft_earth_distance) = Except.ok d := by
  unfold run_simulation_core
  rw [h]
  rfl

/-- Shared helper: the solutions, timeseries and planet-coordinate outputs
of the distance step never depend on the previous
`spacecraft_earth_distance` value. -/
theorem run_simulation_core_triple_indep (sols : List (List State4))
    (ts : List ℕ) (pcs : List (String × (List ℝ × List ℝ)))
    (d d' : Option (List ℝ)) :
    (run_simulation_core sols ts pcs d).map
        (fun st => (st.solutions, st.timeseries, st.planet_coordinates))
      = (run_simulation_core sols ts pcs d').map
        (fun st => (st.solutions, st.timeseries, st.planet_coordinates)) := by
  unfold run_simulation_core
  cases hl : pcs.lookup "earth" with
  | none => rfl
  | some exy => rfl

/-- Claim C2 (counterexample): calling the Mission Sequencer with a duration
list of length 2 and a delta-V list of length 1 raises no `PreconditionError`
at all — `zip` silently truncates the pair list, exactly one segment is
propagated, and a normal result is returned. -/
theorem unequal_lists_truncated_no_error :
    (run_simulation demoFlow demoEarthInit demoEph freshSimState 0 [30, 60]
        [((0 : ℝ), (0 : ℝ))] ["venus"]).toOption.map
        (fun st => st.solutions.length) = some 1 := rfl

/-- Claim C2 (amended): `run_simulation` validates nothing: for every input
the duration and delta-V lists are zipped — silently truncated to the
shorter length — that many segments are propagated, and the only failure the
whole call can produce is NumPy's untyped broadcast `ValueError`; no
`PreconditionError` is ever raised. -/
theorem run_simulation_never_raises_precondition_error
    (flow : List String → ℤ → ℤ → State4 → State4) (earthInit : ℝ × ℝ)
    (eph : String → ℕ → ℝ × ℝ) (s : SimState) (vInf : ℝ)
    (travelDays : List ℕ) (deltaV : List (ℝ × ℝ)) (planetList : List String) :
    match run_simulation flow earthInit eph s vInf travelDays deltaV planetList with
    | Except.ok st => st.solutions.length = min travelDays.length deltaV.length
    | Except.error e => e = SimError.valueError := by
  unfold run_simulation
  exact run_simulation_core_shape _ _ _ _
    (by rw [segmentsLoop_sols_length, List.length_zip])

/-- Claim C7 (counterexample): a run whose spacecraft solution has 2 rows but
whose Earth ephemeris series has 5 entries (durations `[2, 3]` truncated by a
length-1 delta-V list) fails with NumPy's untyped broadcast `ValueError`,
not with a typed `ShapeMismatchError`. -/
theorem distance_mismatch_value_error_not_shape_error :
    run_simulation demoFlow demoEarthInit demoEph freshSimState 0 [2, 3]
        [((0 : ℝ), (0 : ℝ))] ["earth"] = Except.error SimError.valueError
    ∧ SimError.valueError ≠ SimError.shapeMismatchError :=
  ⟨rfl, fun h => SimError.noConfusion h⟩

/-- Claim C7 (amended): the distance computation performs no shape check of
its own.  When the Earth series length differs from the spacecraft series
length and neither length is 1, NumPy's broadcasting raises its untyped
`ValueError`; a `ShapeMismatchError` does not exist in the code (and when one
of the lengths is 1, broadcasting silently computes over the mismatched
arrays instead — see `unequal_lists_truncated_no_error` for the absence of
any typed check). -/
theorem distance_mismatch_generic_broadcast_error (ex ey sx sy : List ℝ)
    (hne : ex.length ≠ sx.length) (hex : ex.length ≠ 1) (hsx : sx.length ≠ 1) :
    spacecraftEarthDistance ex ey sx sy = Except.error () := by
  have h1 : npSub ex sx = Except.error () := by
    unfold npSub
    rw [if_neg hne, if_neg hsx, if_neg hex]
  unfold spacecraftEarthDistance
  rw [h1]
  rcases h2 : npSub ey sy with e | dy
  · rfl
  · rfl

/-- Witness for the amended C7 on concrete arrays of lengths 2 and 3. -/
theorem distance_mismatch_generic_broadcast_error_witness :
    ([(0 : ℝ), 0].length ≠ [(0 : ℝ), 0, 0].length)
    ∧ spacecraftEarthDistance [(0 : ℝ), 0] [(0 : ℝ), 0] [(0 : ℝ), 0, 0]
        [(0 : ℝ), 0, 0] = Except.error () :=
  ⟨by simp,
   distance_mismatch_generic_broadcast_error [(0 : ℝ), 0] [(0 : ℝ), 0]
     [(0 : ℝ), 0, 0] [(0 : ℝ), 0, 0] (by simp) (by simp) (by simp)⟩

/-- Claim C8 (counterexample): two `run_simulation` calls with identical
arguments (planet list `["venus"]`, no `"earth"`) give different
`spacecraft_earth_distance` outputs depending on an earlier run with
different arguments: on an object that previously ran with `["earth"]` the
stale distance array survives (`isSome = true`), while on a fresh object it
is `None`. -/
theorem stale_distance_after_prior_run :
    (run_simulation demoFlow demoEarthInit demoEph demoPrevState 0 [1]
        [((0 : ℝ), (0 : ℝ))] ["venus"]).toOption.map
        (fun st => st.spacecraft_earth_distance.isSome) = some true
    ∧ (run_simulation demoFlow demoEarthInit demoEph freshSimState 0 [1]
        [((0 : ℝ), (0 : ℝ))] ["venus"]).toOption.map
        (fun st => st.spacecraft_earth_distance.isSome) = some false :=
  ⟨rfl, rfl⟩

/-- Claim C8 (amended): the solutions, timeseries and planet-coordinate
outputs of `run_simulation` are always independent of the object's prior
state, and so is the whole result whenever `"earth"` is in the planet list;
but when `"earth"` is absent the `spacecraft_earth_distance` attribute is
not recomputed — it keeps whatever value the object's previous runs left
in it. -/
theorem run_simulation_history_independence
    (flow : List String → ℤ → ℤ → State4 → State4) (earthInit : ℝ × ℝ)
    (eph : String → ℕ → ℝ × ℝ) (s s' : SimState) (vInf : ℝ)
    (travelDays : List ℕ) (deltaV : List (ℝ × ℝ)) (planetList : List String) :
    ((run_simulation flow earthInit eph s vInf travelDays deltaV planetList).map
        (fun st => (st.solutions, st.timeseries, st.planet_coordinates))
      = (run_simulation flow earthInit eph s' vInf travelDays deltaV planetList).map
        (fun st => (st.solutions, st.timeseries, st.planet_coordinates)))
    ∧ ("earth" ∈ planetList →
        run_simulation flow earthInit eph s vInf travelDays deltaV planetList
          = run_simulation flow earthInit eph s' vInf travelDays deltaV planetList)
    ∧ ("earth" ∉ planetList →
        (run_simulation flow earthInit eph s vInf travelDays deltaV planetList).map
            (fun st => st.spacecraft_earth_distance)
          = Except.ok s.spacecraft_earth_distance) := by
  refine ⟨?_, ?_, ?_⟩
  · unfold run_simulation
    exact run_simulation_core_triple_indep _ _ _ _ _
  · intro hmem
    unfold run_simulation
    exact run_simulation_core_some_indep _ _ _ _ _
      (lookup_map_of_mem _ planetList "earth" hmem)
  · intro hnot
    unfold run_simulation
    exact run_simulation_core_none_dist _ _ _ _
      (lookup_map_of_not_mem _ planetList "earth" hnot)

/-- Witness for the amended C8: with `"earth"` in the planet list, a run on
an object with prior history equals the same run on a fresh object. -/
theorem run_simulation_history_independence_witness :
    ("earth" ∈ ["earth"])
    ∧ run_simulation demoFlow demoEarthInit demoEph demoPrevState 0 [1]
        [((0 : ℝ), (0 : ℝ))] ["earth"]
      = run_simulation demoFlow demoEarthInit demoEph freshSimState 0 [1]
        [((0 : ℝ), (0 : ℝ))] ["earth"] :=
  ⟨by decide,
   (run_simulation_history_independence demoFlow demoEarthInit demoEph
     demoPrevState freshSimState 0 [1] [((0 : ℝ), (0 : ℝ))] ["earth"]).2.1
     (by decide)⟩
